import Mathlib

/-!
# ScandEval configuration-resolution core: shallow embedding and verification

This file embeds the configuration resolution and dispatch engine of the
ScandEval repository in Lean 4 and proves properties of it:

* `src/scandeval/benchmark_config_factory.py` — `prepare_languages`,
  `prepare_model_languages`, `prepare_dataset_languages`,
  `prepare_dataset_tasks`;
* `src/scandeval/hf_hub.py` — `get_model_config`, `get_model_lists`;
* `src/scandeval/dataset_factory.py` — `DatasetFactory.build_dataset`.

Python-specific behaviour is modelled explicitly:

* a value of type `str | list[str]` becomes the sum type `StrOrList`;
* Python's `"all" in x`, which is a substring test when `x` is a `str` and an
  element test when `x` is a `list`, becomes `pyInAll`;
* a raising `dict[...]` lookup becomes `dictGet`, returning
  `Except PyError`, whose error is `PyError.keyError`;
* a `defaultdict(list)` becomes an association list with `dExtend`/`dSet`,
  where reading a missing bucket materialises it as `[]`;
* `list(set(xs) | {..})` becomes `pySetUnion` (membership-faithful; Python's
  set iteration order is unspecified and no claim depends on order);
* `raise` becomes `Except.error` with a `PyError` constructor naming the
  Python exception class that is raised.

The modules `languages.py`, `dataset_tasks.py`, `config.py` and
`exceptions.py` are not part of the given sources; the catalogs and record
types they provide are modelled from the specification, as marked on each
definition.
-/

namespace ScandEval

/-- Modelled from the spec: `config.py` is absent from the sources.  The spec
defines `Language` as the immutable record `{code: string, name: string}`
(a plain frozen dataclass; no custom equality). -/
structure Language where
  code : String
  name : String
deriving DecidableEq, Repr

/-- Modelled from the spec: `config.py` is absent from the sources.  The spec
defines `DatasetTask` as the immutable record
`{identifier: string, supertask: string}`. -/
structure DatasetTask where
  identifier : String
  supertask : String
deriving DecidableEq, Repr

/-- Modelled from the spec: `languages.py` (`get_all_languages`) is absent
from the sources.  The spec describes it as a fixed mapping from language
code to language metadata, fixed at process start, containing the linked
codes "no"/"nb"/"nn" and the Scandinavian codes the CLI exposes
("da", "sv", "no", "nb", "nn", "is", "fo"); the concrete entries below follow
that description.  All theorems about the catalog use only its key set and
the membership of the linked Norwegian codes. -/
def get_all_languages : List (String × Language) :=
  [ ("da", ⟨"da", "Danish"⟩)
  , ("sv", ⟨"sv", "Swedish"⟩)
  , ("no", ⟨"no", "Norwegian"⟩)
  , ("nb", ⟨"nb", "Norwegian Bokmål"⟩)
  , ("nn", ⟨"nn", "Norwegian Nynorsk"⟩)
  , ("is", ⟨"is", "Icelandic"⟩)
  , ("fo", ⟨"fo", "Faroese"⟩)
  , ("de", ⟨"de", "German"⟩)
  , ("nl", ⟨"nl", "Dutch"⟩)
  , ("en", ⟨"en", "English"⟩) ]

/-- Modelled from the spec: `dataset_tasks.py` (`get_all_dataset_tasks`) is
absent from the sources.  The spec describes a fixed mapping from task
identifier to task metadata whose identifiers include "ner" and "qa" and
whose supertask values include "text-classification" (e.g. "sentiment"
under "text-classification"). -/
def get_all_dataset_tasks : List (String × DatasetTask) :=
  [ ("sentiment", ⟨"sentiment", "text-classification"⟩)
  , ("la", ⟨"la", "text-classification"⟩)
  , ("ner", ⟨"ner", "token-classification"⟩)
  , ("qa", ⟨"qa", "question-answering"⟩) ]

/-- Errors raised by the embedded code.  Each constructor names a Python
exception class: `keyError` is a raising `dict` lookup, `valueError` is a
`raise ValueError` (or a failed tuple unpacking), `invalidBenchmark` and
`connectionError` are the classes raised in `hf_hub.py`.
`requestException` represents a raw `requests.RequestException` from the
transport layer propagating uncaught, and `configurationError` represents
the `ConfigurationError` class named by the specification's error taxonomy;
neither is ever constructed by the embedded code — the former because
`get_model_config` remaps it, the latter because no such class exists in the
repository — and both exist so that claims naming them can be stated. -/
inductive PyError where
  | keyError (key : String)
  | valueError (msg : String)
  | invalidBenchmark (msg : String)
  | connectionError (msg : String)
  | requestException (detail : String)
  | configurationError (msg : String)
deriving DecidableEq, Repr

/-- Discriminator: does a computation signal the spec's `ConfigurationError`? -/
def isConfigurationError {α : Type} : Except PyError α → Bool
  | Except.error (PyError.configurationError _) => true
  | _ => false

/-- A Python value of type `str | list[str]`. -/
inductive StrOrList where
  | str (s : String)
  | list (l : List String)
deriving DecidableEq, Repr

/-- Does `pat` occur as a contiguous sublist of the second argument?
(Used to model Python's substring test `pat in s` on strings.) -/
def charsInfixOf (pat : List Char) : List Char → Bool
  | [] => pat.isEmpty
  | c :: cs => pat.isPrefixOf (c :: cs) || charsInfixOf pat cs

/-- Python's `"all" in x` for `x : str | list[str]`: a substring test on a
`str`, an element test on a `list`. -/
def pyInAll : StrOrList → Bool
  | StrOrList.str s => charsInfixOf "all".toList s.toList
  | StrOrList.list l => l.contains "all"

/-- The codes a selector denotes before the "all" expansion: a scalar is the
singleton list, a collection is itself (lines 139-142 of
`benchmark_config_factory.py`). -/
def selectorCodes : StrOrList → List String
  | StrOrList.str s => [s]
  | StrOrList.list l => l

/-- Python's `list(set(xs) | set(ys))`, membership-faithful: the result
contains exactly the elements of `xs ++ ys`, each once.  Python's set
iteration order is unspecified; every claim about the result is about
membership only. -/
def pySetUnion (xs ys : List String) : List String :=
  (xs ++ ys).dedup

/-- `prepare_languages` of `benchmark_config_factory.py` (lines 120-151):
if `"all" in language` return every catalog key; otherwise normalise the
scalar to a singleton; then apply the "no"/"nb"/"nn" step: if "no" is
present add "nb" and "nn", otherwise if "nb" or "nn" is present add "no". -/
def prepare_languages (language : StrOrList) : List String :=
  let language_mapping := get_all_languages
  let languages : List String :=
    if pyInAll language then language_mapping.map Prod.fst
    else selectorCodes language
  if languages.contains "no" then pySetUnion languages ["nb", "nn"]
  else if languages.contains "nb" || languages.contains "nn" then
    pySetUnion languages ["no"]
  else languages

/-- A raising Python `dict` lookup `mapping[key]`: `KeyError` when absent. -/
def dictGet {α : Type} (mapping : List (String × α)) (key : String) :
    Except PyError α :=
  match mapping.find? (fun p => p.1 == key) with
  | some p => Except.ok p.2
  | none => Except.error (PyError.keyError key)

/-- `prepare_model_languages` of `benchmark_config_factory.py`
(lines 154-191): default to the base codes when the override is `None`,
normalise a scalar to a singleton; if the resulting list contains "all"
return every catalog value, otherwise hydrate each code by a raising
catalog lookup. -/
def prepare_model_languages (model_language : Option StrOrList)
    (languages : List String) : Except PyError (List Language) :=
  let language_mapping := get_all_languages
  let model_languages_str : List String :=
    match model_language with
    | none => languages
    | some sel => selectorCodes sel
  if model_languages_str.contains "all" then
    Except.ok (language_mapping.map Prod.snd)
  else
    model_languages_str.mapM (dictGet language_mapping)

/-- `prepare_dataset_languages` of `benchmark_config_factory.py`
(lines 194-232): identical in structure to `prepare_model_languages`. -/
def prepare_dataset_languages (dataset_language : Option StrOrList)
    (languages : List String) : Except PyError (List Language) :=
  let language_mapping := get_all_languages
  let dataset_languages_str : List String :=
    match dataset_language with
    | none => languages
    | some sel => selectorCodes sel
  if dataset_languages_str.contains "all" then
    Except.ok (language_mapping.map Prod.snd)
  else
    dataset_languages_str.mapM (dictGet language_mapping)

/-- `prepare_dataset_tasks` of `benchmark_config_factory.py`
(lines 235-259): `None` returns every catalog value; a scalar or each
element of a collection is hydrated by a raising catalog lookup (there is
no "all" handling here). -/
def prepare_dataset_tasks (dataset_task : Option StrOrList) :
    Except PyError (List DatasetTask) :=
  let dataset_task_mapping := get_all_dataset_tasks
  match dataset_task with
  | none => Except.ok (dataset_task_mapping.map Prod.snd)
  | some (StrOrList.str s) =>
      (dictGet dataset_task_mapping s).map (fun t => [t])
  | some (StrOrList.list l) =>
      l.mapM (dictGet dataset_task_mapping)

/-! ## `hf_hub.py`: `get_model_config` -/

/-- One result of a registry query, as `hf_hub.py` consumes it: an
identifier, a tag set and an optional declared pipeline task. -/
structure ModelInfo where
  id : String
  tags : List String
  pipeline_tag : Option String
deriving DecidableEq, Repr

/-- Modelled from the spec: `config.py` is absent from the sources.  The spec
defines `ModelConfig` as the immutable record
`{model_id, framework, task, languages, revision}`. -/
structure ModelConfig where
  model_id : String
  framework : String
  task : String
  languages : List String
  revision : String
deriving DecidableEq, Repr

/-- Python's `s.startswith(pre)`. -/
def pyStartsWith (s pre : String) : Bool :=
  pre.toList.isPrefixOf s.toList

/-- Split a character list at the first occurrence of `sep`; `none` when
`sep` does not occur. -/
def splitFirstAux (sep : Char) : List Char → Option (List Char × List Char)
  | [] => none
  | c :: cs =>
      if c == sep then some ([], cs)
      else
        match splitFirstAux sep cs with
        | some (l, r) => some (c :: l, r)
        | none => none

/-- Lines 46-51 of `hf_hub.py`: if `"@" in model_id` then
`model_id.split("@", 1)`, else the identifier itself with revision
`"main"`. -/
def splitRevision (model_id : String) : String × String :=
  match splitFirstAux '@' model_id.toList with
  | some (l, r) => (l.asString, r.asString)
  | none => (model_id, "main")

/-- Python's `s.split(sep)` for a single-character separator: always a
nonempty list of parts. -/
def splitAllChar (sep : Char) : List Char → List (List Char)
  | [] => [[]]
  | c :: cs =>
      let rest := splitAllChar sep cs
      if c == sep then [] :: rest
      else
        match rest with
        | r :: rs => (c :: r) :: rs
        | [] => [[c]]

/-- Lines 53-59 of `hf_hub.py`: if `"/" in model_id_without_revision` then
`author, model_name = model_id_without_revision.split("/")` — a tuple
unpacking that raises `ValueError` unless the split has exactly two parts —
else author `None` and the identifier itself as name. -/
def splitAuthor (s : String) : Except PyError (Option String × String) :=
  match splitAllChar '/' s.toList with
  | [_] => Except.ok (none, s)
  | [a, n] => Except.ok (some a.asString, n.asString)
  | _ => Except.error (PyError.valueError "too many values to unpack (expected 2)")

/-- Lines 82-91 of `hf_hub.py`: framework defaults to `"pytorch"`; a
`"pytorch"` tag keeps the default, else a `"jax"` tag gives `"jax"`, else a
`"spacy"` tag gives `"spacy"`, else any of `"tf"`/`"tensorflow"`/`"keras"`
raises `InvalidBenchmark`; with none of these tags the default stands. -/
def detect_framework (tags : List String) : Except PyError String :=
  if tags.contains "pytorch" then Except.ok "pytorch"
  else if tags.contains "jax" then Except.ok "jax"
  else if tags.contains "spacy" then Except.ok "spacy"
  else if tags.contains "tf" || tags.contains "tensorflow"
      || tags.contains "keras" then
    Except.error (PyError.invalidBenchmark "TensorFlow/Keras models are not supported.")
  else Except.ok "pytorch"

/-- Lines 93-99 of `hf_hub.py`: the declared pipeline task, defaulting to
`"fill-mask"` when absent or equal to `"sentence-similarity"` or
`"feature-extraction"`. -/
def detect_model_task (pipeline_tag : Option String) : String :=
  match pipeline_tag with
  | none => "fill-mask"
  | some t =>
      if t == "sentence-similarity" || t == "feature-extraction" then "fill-mask"
      else t

/-- The message of the `ConnectionError` raised on a transport failure
(lines 114-118 of `hf_hub.py`). -/
def hubFailureMsg : String :=
  "Connection to the Hugging Face Hub failed. Check your internet connection and if https://huggingface.co is down."

/-- `get_model_config` of `hf_hub.py` (lines 18-121).  The registry round
trip is the parameter `hub`: `Except.error detail` is the transport layer
raising a `requests.RequestException` during `api.list_models`, and
`Except.ok models` is the returned match list.  A `"random"`-prefixed
identifier short-circuits before any split or query; otherwise the revision
and author splits happen before the `try` block, a transport failure is
remapped to `ConnectionError` with a fixed message, an empty match list
raises `InvalidBenchmark`, and the first match's tags drive framework,
task and language detection. -/
def get_model_config (model_id : String)
    (hub : Except String (List ModelInfo)) : Except PyError ModelConfig :=
  if pyStartsWith model_id "random" then
    Except.ok ⟨model_id, "pytorch", "fill-mask", [], "main"⟩
  else
    let model_id_without_revision := (splitRevision model_id).1
    let revision := (splitRevision model_id).2
    match splitAuthor model_id_without_revision with
    | Except.error e => Except.error e
    | Except.ok _author_name =>
        match hub with
        | Except.error _detail => Except.error (PyError.connectionError hubFailureMsg)
        | Except.ok models =>
            match models with
            | [] =>
                Except.error (PyError.invalidBenchmark
                  ("The model " ++ model_id ++ " does not exist on the Hugging Face Hub."))
            | m :: _ =>
                match detect_framework m.tags with
                | Except.error e => Except.error e
                | Except.ok framework =>
                    let model_task := detect_model_task m.pipeline_tag
                    let language_codes := get_all_languages.map Prod.fst
                    Except.ok
                      ⟨ model_id_without_revision
                      , framework
                      , model_task
                      , m.tags.filter (fun tag => language_codes.contains tag)
                      , revision ⟩

/-! ## `hf_hub.py`: `get_model_lists` -/

/-- A Python `defaultdict(list)` keyed by strings. -/
def DList : Type := List (String × List String)

/-- Apply `f` to the bucket of `k`, materialising a missing bucket as `[]`
first (`defaultdict` semantics). -/
def dUpdate (d : DList) (k : String) (f : List String → List String) : DList :=
  match d with
  | [] => [(k, f [])]
  | (k', v) :: rest =>
      if k' == k then (k', f v) :: rest else (k', v) :: dUpdate rest k f

/-- `model_lists[k].extend(vs)` on a `defaultdict(list)`. -/
def dExtend (d : DList) (k : String) (vs : List String) : DList :=
  dUpdate d k (fun v => v ++ vs)

/-- `model_lists[k] = vs` (plain assignment, replacing any prior bucket). -/
def dSet (d : DList) (k : String) (vs : List String) : DList :=
  dUpdate d k (fun _ => vs)

/-- Read a bucket: `none` when the key is absent. -/
def dGet (d : DList) (k : String) : Option (List String) :=
  (d.find? (fun p => p.1 == k)).map Prod.snd

/-- Python's `==` between a `str` and a `Language` record: the record's
generated `__eq__` returns `NotImplemented` for a non-`Language` operand and
the reflected comparison falls back to identity, so the comparison is always
`False`.  (The `Language` class is modelled from the spec — `config.py` is
absent from the sources — as the plain immutable `{code, name}` record with
no custom cross-type equality.) -/
def pyStrEqLanguage (_s : String) (_l : Language) : Bool :=
  false

/-- Python's `s in languages` where `languages : list[Language]` and
`s : str`: elementwise `==` against `Language` records. -/
def pyStrInLanguages (s : String) (languages : List Language) : Bool :=
  languages.any (fun l => pyStrEqLanguage s l)

/-- The curated multilingual list (lines 203-213 of `hf_hub.py`). -/
def multi_models : List String :=
  [ "xlm-roberta-large"
  , "Peltarion/xlm-roberta-longformer-base-4096"
  , "microsoft/xlm-align-base"
  , "microsoft/infoxlm-base"
  , "microsoft/infoxlm-large"
  , "bert-base-multilingual-cased"
  , "bert-base-multilingual-uncased"
  , "distilbert-base-multilingual-cased"
  , "cardiffnlp/twitter-xlm-roberta-base" ]

/-- The curated synthetic identifiers (lines 218-223 of `hf_hub.py`). -/
def random_models : List String :=
  [ "random-xlmr-base-sequence-clf"
  , "random-xlmr-base-token-clf"
  , "random-electra-small-sequence-clf"
  , "random-electra-small-token-clf" ]

/-- The curated Danish-multilingual override list (lines 229-236 of
`hf_hub.py`). -/
def multi_da_models : List String :=
  [ "Geotrend/bert-base-en-da-cased"
  , "Geotrend/bert-base-25lang-cased"
  , "Geotrend/bert-base-en-fr-de-no-da-cased"
  , "Geotrend/distilbert-base-en-da-cased"
  , "Geotrend/distilbert-base-25lang-cased"
  , "Geotrend/distilbert-base-en-fr-de-no-da-cased" ]

/-- The curated Norwegian-multilingual override list (lines 243-250 of
`hf_hub.py`). -/
def multi_no_models : List String :=
  [ "Geotrend/bert-base-en-no-cased"
  , "Geotrend/bert-base-25lang-cased"
  , "Geotrend/bert-base-en-fr-de-no-da-cased"
  , "Geotrend/distilbert-base-en-no-cased"
  , "Geotrend/distilbert-base-25lang-cased"
  , "Geotrend/distilbert-base-en-fr-de-no-da-cased" ]

/-- The query loop of `get_model_lists` (lines 182-200 of `hf_hub.py`):
for every language code and every task of the pass list, fetch the ids for
that `(language, task)` filter and extend the `"all"` bucket, the
per-language bucket (the code is always a string here, never `None`) and —
when a task filter is present — the per-task bucket. -/
def gatherLoop (hub : String → Option String → List String)
    (codes : List String) (loopTasks : List (Option String)) : DList :=
  codes.foldl
    (fun d language =>
      loopTasks.foldl
        (fun d task =>
          let model_ids := hub language task
          let d := dExtend d "all" model_ids
          let d := dExtend d language model_ids
          match task with
          | some t => dExtend d t model_ids
          | none => d)
        d)
    []

/-- `get_model_lists` of `hf_hub.py` (lines 125-258).  The registry is the
parameter `hub`, mapping a `(language, task)` filter to the returned ids.
`for task in tasks or [None]` makes a single unfiltered pass when `tasks`
is `None` or empty.  After the loop the curated lists are injected: the
multilingual list is assigned to `"multilingual"` and extended into
`"all"`; the synthetic identifiers into `"all"` only; the Danish and
Norwegian override lists are guarded by `"da" in languages` and
`any(lang in languages for lang in ["no", "nb", "nn"])`, both comparing
strings against `Language` records.  Finally every bucket is deduplicated
(`list(set(...))`; membership-faithful, order unspecified).  The
log-message construction of lines 150-176 only sorts local copies and is
omitted: it does not change any bucket's membership. -/
def get_model_lists (hub : String → Option String → List String)
    (languages : List Language) (tasks : Option (List String)) : DList :=
  let codes := languages.map Language.code
  let loopTasks : List (Option String) :=
    match tasks with
    | none => [none]
    | some ts => if ts.isEmpty then [none] else ts.map some
  let d := gatherLoop hub codes loopTasks
  let d := dSet d "multilingual" multi_models
  let d := dExtend d "all" multi_models
  let d := dExtend d "all" random_models
  let d :=
    if pyStrInLanguages "da" languages then
      dExtend (dExtend d "da" multi_da_models) "all" multi_da_models
    else d
  let d :=
    if ["no", "nb", "nn"].any (fun lang => pyStrInLanguages lang languages) then
      dExtend (dExtend d "no" multi_no_models) "all" multi_no_models
    else d
  d.map (fun p => (p.1, p.2.dedup))

/-! ## `dataset_factory.py`: `DatasetFactory.build_dataset` -/

/-- Modelled from the spec: `config.py` is absent from the sources.  The spec
defines `DatasetConfig` as `{identifier, task, supertask, ...}`; only the
fields `build_dataset` reads are carried. -/
structure DatasetConfig where
  identifier : String
  task : String
  supertask : String
deriving DecidableEq, Repr

/-- The benchmark executor classes `build_dataset` chooses between. -/
inductive BenchmarkCls where
  | textClassification
  | ner
  | qa
deriving DecidableEq, Repr

/-- `DatasetFactory.build_dataset` of `dataset_factory.py` (lines 19-52),
given an already-resolved `DatasetConfig` (a string identifier is first
resolved by the external dataset registry, outside this core): dispatch on
`supertask == "text-classification"`, then `task == "ner"`, then
`task == "qa"`, else `raise ValueError(f"Unknown dataset task: ...")`. -/
def build_dataset (dataset_config : DatasetConfig) : Except PyError BenchmarkCls :=
  if dataset_config.supertask == "text-classification" then
    Except.ok BenchmarkCls.textClassification
  else if dataset_config.task == "ner" then
    Except.ok BenchmarkCls.ner
  else if dataset_config.task == "qa" then
    Except.ok BenchmarkCls.qa
  else
    Except.error (PyError.valueError ("Unknown dataset task: " ++ dataset_config.task))

instance {ε α : Type} [DecidableEq ε] [DecidableEq α] : DecidableEq (Except ε α) :=
  fun x y =>
    match x, y with
    | Except.ok a, Except.ok b =>
        if h : a = b then isTrue (by rw [h])
        else isFalse (fun hh => h (Except.ok.inj hh))
    | Except.error a, Except.error b =>
        if h : a = b then isTrue (by rw [h])
        else isFalse (fun hh => h (Except.error.inj hh))
    | Except.ok _, Except.error _ => isFalse (fun hh => Except.noConfusion hh)
    | Except.error _, Except.ok _ => isFalse (fun hh => Except.noConfusion hh)

/-! ## Helper lemmas -/

theorem mem_pySetUnion {a : String} {xs ys : List String} :
    a ∈ pySetUnion xs ys ↔ a ∈ xs ∨ a ∈ ys := by
  simp [pySetUnion, List.mem_dedup]

theorem dictGet_not_mem {α : Type} (mapping : List (String × α)) (key : String)
    (h : key ∉ mapping.map Prod.fst) :
    dictGet mapping key = Except.error (PyError.keyError key) := by
  unfold dictGet
  have hnone : mapping.find? (fun p => p.1 == key) = none := by
    rw [List.find?_eq_none]
    intro p hp hbeq
    exact h (List.mem_map.mpr ⟨p, hp, eq_of_beq hbeq⟩)
  rw [hnone]

theorem splitFirstAux_eq_none_iff (sep : Char) (l : List Char) :
    splitFirstAux sep l = none ↔ sep ∉ l := by
  induction l with
  | nil => simp [splitFirstAux]
  | cons c cs ih =>
      simp only [splitFirstAux]
      by_cases hc : c == sep
      · have hceq : c = sep := eq_of_beq hc
        subst hceq
        simp [hc]
      · rw [if_neg hc]
        have hne : sep ≠ c := fun e => hc (by simp [e])
        cases hrec : splitFirstAux sep cs with
        | none =>
            have hnot : sep ∉ cs := ih.mp hrec
            simp [hne, hnot]
        | some p =>
            have hmem : sep ∈ cs := by
              by_contra hcontra
              rw [ih.mpr hcontra] at hrec
              exact Option.noConfusion hrec
            simp [hmem]

theorem splitFirstAux_some_spec (sep : Char) :
    ∀ l a b, splitFirstAux sep l = some (a, b) → l = a ++ sep :: b ∧ sep ∉ a := by
  intro l
  induction l with
  | nil => intro a b h; exact Option.noConfusion h
  | cons c cs ih =>
      intro a b h
      simp only [splitFirstAux] at h
      by_cases hc : c == sep
      · rw [if_pos hc] at h
        injection h with hp
        injection hp with h1 h2
        subst h1
        subst h2
        exact ⟨by simp [eq_of_beq hc], by simp⟩
      · rw [if_neg hc] at h
        cases hrec : splitFirstAux sep cs with
        | none => rw [hrec] at h; exact Option.noConfusion h
        | some p =>
            obtain ⟨p1, p2⟩ := p
            rw [hrec] at h
            injection h with hp
            injection hp with h1 h2
            subst h1
            subst h2
            obtain ⟨hl, hs⟩ := ih p1 p2 hrec
            constructor
            · rw [hl]; rfl
            · intro hmem
              rcases List.mem_cons.mp hmem with he | he
              · exact (fun e => hc (by simp [e])) he.symm
              · exact hs he

theorem toList_asString (l : List Char) : (List.asString l).toList = l := rfl

theorem splitRevision_of_not_mem (model_id : String) (h : '@' ∉ model_id.toList) :
    splitRevision model_id = (model_id, "main") := by
  unfold splitRevision
  rw [(splitFirstAux_eq_none_iff '@' model_id.toList).mpr h]

theorem splitRevision_of_mem (model_id : String) (h : '@' ∈ model_id.toList) :
    '@' ∉ (splitRevision model_id).1.toList
  ∧ model_id = (splitRevision model_id).1 ++ "@" ++ (splitRevision model_id).2 := by
  unfold splitRevision
  cases hs : splitFirstAux '@' model_id.toList with
  | none => exact absurd h ((splitFirstAux_eq_none_iff '@' model_id.toList).mp hs)
  | some p =>
      obtain ⟨a, b⟩ := p
      obtain ⟨hl, hna⟩ := splitFirstAux_some_spec '@' model_id.toList a b hs
      refine ⟨by simpa [toList_asString] using hna, ?_⟩
      apply String.ext
      show model_id.data = (List.asString a ++ "@" ++ List.asString b).data
      rw [String.data_append, String.data_append]
      show model_id.toList = a ++ "@".data ++ b
      rw [hl]
      simp

/-! ## Claim C9 -/

/-- C9: resolving the language selector "all" with `prepare_languages`
returns exactly the full set of language-catalog codes, and resolving the
dataset-task selector `None` with `prepare_dataset_tasks` returns exactly
every entry of the task catalog. -/
theorem resolve_all_yields_full_catalog :
    (prepare_languages (StrOrList.str "all")).toFinset
      = (get_all_languages.map Prod.fst).toFinset
  ∧ prepare_dataset_tasks none = Except.ok (get_all_dataset_tasks.map Prod.snd) := by
  exact ⟨by decide, rfl⟩

/-! ## Claim C10 -/

/-- C10: for every scalar string selector in which "all" occurs as a
substring, `prepare_languages` resolves to the full language-catalog key
set rather than treating the string as a single language code, because the
"all" sentinel is detected by Python membership — a substring test — on the
raw selector before the scalar/collection distinction is made.  (The final
conjunct: such a selector never survives into the result unless it is
itself a catalog code.) -/
theorem prepare_languages_scalar_all_substring (s : String)
    (h : charsInfixOf "all".toList s.toList = true) :
    pyInAll (StrOrList.str s) = true
  ∧ (prepare_languages (StrOrList.str s)).toFinset
      = (get_all_languages.map Prod.fst).toFinset
  ∧ (s ∉ get_all_languages.map Prod.fst →
      s ∉ prepare_languages (StrOrList.str s)) := by
  have hall : pyInAll (StrOrList.str s) = true := h
  have hred : prepare_languages (StrOrList.str s)
      = pySetUnion (get_all_languages.map Prod.fst) ["nb", "nn"] := by
    unfold prepare_languages
    simp only [hall, if_true]
    decide
  rw [hred]
  refine ⟨hall, by decide, fun hs hmem => hs ?_⟩
  rcases mem_pySetUnion.mp hmem with h1 | h1
  · exact h1
  · rcases List.mem_cons.mp h1 with he | he
    · subst he; decide
    · rcases List.mem_cons.mp he with he2 | he2
      · subst he2; decide
      · exact absurd he2 (List.not_mem_nil s)

/-- Witness for `prepare_languages_scalar_all_substring` at the scalar
selector "small", which contains "all" as a substring. -/
theorem prepare_languages_scalar_all_substring_witness :
    charsInfixOf "all".toList "small".toList = true
  ∧ (prepare_languages (StrOrList.str "small")).toFinset
      = (get_all_languages.map Prod.fst).toFinset
  ∧ "small" ∉ prepare_languages (StrOrList.str "small") :=
  ⟨by decide,
   (prepare_languages_scalar_all_substring "small" (by decide)).2.1,
   (prepare_languages_scalar_all_substring "small" (by decide)).2.2 (by decide)⟩

/-! ## Claim C1 -/

/-- C1, counterexample: the scalar selector "nb" resolves to a set
containing "nb" and "no" but not "nn" (`prepare_languages` adds only "no"
in its `elif` branch), so the resolved set's intersection with
{"no", "nb", "nn"} is partial, which the claim says is impossible. -/
theorem prepare_languages_nb_lacks_nn :
    "nb" ∈ prepare_languages (StrOrList.str "nb")
  ∧ "no" ∈ prepare_languages (StrOrList.str "nb")
  ∧ "nn" ∉ prepare_languages (StrOrList.str "nb") := by
  exact ⟨by decide, by decide, by decide⟩

/-- C1, amended: the returned language set intersected with
{"no", "nb", "nn"} is either empty or contains "no" (partial inclusion that
omits "no" is disallowed); and a selector containing "no" resolves to a set
containing all of "no", "nb" and "nn".  (A selector containing only "nb" or
only "nn" gains "no" but not the sibling code.) -/
theorem prepare_languages_no_closure (language : StrOrList) :
    (("no" ∈ prepare_languages language ∨ "nb" ∈ prepare_languages language ∨
        "nn" ∈ prepare_languages language) → "no" ∈ prepare_languages language)
  ∧ ("no" ∈ selectorCodes language →
      "no" ∈ prepare_languages language ∧ "nb" ∈ prepare_languages language ∧
        "nn" ∈ prepare_languages language) := by
  by_cases hall : pyInAll language = true
  · have hred : prepare_languages language
        = pySetUnion (get_all_languages.map Prod.fst) ["nb", "nn"] := by
      unfold prepare_languages
      simp only [hall, if_true]
      decide
    rw [hred]
    exact ⟨fun _ => by decide, fun _ => ⟨by decide, by decide, by decide⟩⟩
  · have hall' : pyInAll language = false := by simpa using hall
    have hred : prepare_languages language
        = (if (selectorCodes language).contains "no" then
             pySetUnion (selectorCodes language) ["nb", "nn"]
           else if (selectorCodes language).contains "nb"
               || (selectorCodes language).contains "nn" then
             pySetUnion (selectorCodes language) ["no"]
           else selectorCodes language) := by
      unfold prepare_languages
      simp only [hall', Bool.false_eq_true, if_false]
    rw [hred]
    by_cases h1 : (selectorCodes language).contains "no" = true
    · rw [if_pos h1]
      have hno : "no" ∈ selectorCodes language := by simpa using h1
      exact ⟨fun _ => mem_pySetUnion.mpr (Or.inl hno),
        fun _ => ⟨mem_pySetUnion.mpr (Or.inl hno),
          mem_pySetUnion.mpr (Or.inr (by decide)),
          mem_pySetUnion.mpr (Or.inr (by decide))⟩⟩
    · rw [if_neg h1]
      have hno_not : "no" ∉ selectorCodes language := by
        have h1' : (selectorCodes language).contains "no" = false := by simpa using h1
        simpa using h1'
      by_cases h2 : ((selectorCodes language).contains "nb"
          || (selectorCodes language).contains "nn") = true
      · rw [if_pos h2]
        exact ⟨fun _ => mem_pySetUnion.mpr (Or.inr (by decide)),
          fun hno => absurd hno hno_not⟩
      · rw [if_neg h2]
        have h2' : ((selectorCodes language).contains "nb"
            || (selectorCodes language).contains "nn") = false := by simpa using h2
        have hnb_not : "nb" ∉ selectorCodes language := by
          have := (Bool.or_eq_false_iff.mp h2').1
          simpa using this
        have hnn_not : "nn" ∉ selectorCodes language := by
          have := (Bool.or_eq_false_iff.mp h2').2
          simpa using this
        refine ⟨fun hone => ?_, fun hno => absurd hno hno_not⟩
        rcases hone with h | h | h
        · exact h
        · exact absurd h hnb_not
        · exact absurd h hnn_not

/-- Witness for `prepare_languages_no_closure` at the concrete selectors
"nb" and "no". -/
theorem prepare_languages_no_closure_witness :
    "no" ∈ prepare_languages (StrOrList.str "nb")
  ∧ "nb" ∈ prepare_languages (StrOrList.str "no") := by
  exact ⟨(prepare_languages_no_closure (StrOrList.str "nb")).1
      (Or.inr (Or.inl (by decide))),
    ((prepare_languages_no_closure (StrOrList.str "no")).2 (by decide)).2.1⟩

/-! ## Claim C3 -/

/-- C3, counterexample: an unknown language code or task identifier makes
the resolvers signal `KeyError` — the raising `dict` lookup — not the
`ConfigurationError` named by the claim (no such class exists in the
repository). -/
theorem prepare_unknown_not_configuration_error :
    prepare_model_languages (some (StrOrList.str "zz")) []
      = Except.error (PyError.keyError "zz")
  ∧ prepare_dataset_languages (some (StrOrList.str "zz")) []
      = Except.error (PyError.keyError "zz")
  ∧ prepare_dataset_tasks (some (StrOrList.str "pos"))
      = Except.error (PyError.keyError "pos")
  ∧ isConfigurationError (prepare_model_languages (some (StrOrList.str "zz")) [])
      = false
  ∧ isConfigurationError (prepare_dataset_tasks (some (StrOrList.str "pos")))
      = false := by
  exact ⟨by decide, by decide, by decide, by decide, by decide⟩

/-- C3, amended: for every language code not present in the language
catalog (and distinct from the "all" sentinel), `prepare_model_languages`
and `prepare_dataset_languages` signal `KeyError` for that code when
resolving it; and for every task identifier not present in the task
catalog, `prepare_dataset_tasks` signals `KeyError` for that identifier,
failing fast with no partial matching. -/
theorem prepare_unknown_signals_keyerror (code task : String) (base : List String)
    (hcode : code ∉ get_all_languages.map Prod.fst)
    (hall : code ≠ "all")
    (htask : task ∉ get_all_dataset_tasks.map Prod.fst) :
    prepare_model_languages (some (StrOrList.str code)) base
      = Except.error (PyError.keyError code)
  ∧ prepare_dataset_languages (some (StrOrList.str code)) base
      = Except.error (PyError.keyError code)
  ∧ prepare_dataset_tasks (some (StrOrList.str task))
      = Except.error (PyError.keyError task) := by
  have hc : ([code].contains "all") = false := by
    simp [List.contains]
    exact fun h => hall h.symm
  have hget := dictGet_not_mem get_all_languages code hcode
  have hgett := dictGet_not_mem get_all_dataset_tasks task htask
  refine ⟨?_, ?_, ?_⟩
  · unfold prepare_model_languages
    simp only [selectorCodes, hc, Bool.false_eq_true, if_false]
    simp [List.mapM, List.mapM.loop, hget]
  · unfold prepare_dataset_languages
    simp only [selectorCodes, hc, Bool.false_eq_true, if_false]
    simp [List.mapM, List.mapM.loop, hget]
  · show Except.map (fun t => [t]) (dictGet get_all_dataset_tasks task)
        = Except.error (PyError.keyError task)
    rw [hgett]
    rfl

/-- Witness for `prepare_unknown_signals_keyerror` at the unknown code "zz"
and the unknown task identifier "pos". -/
theorem prepare_unknown_signals_keyerror_witness :
    prepare_model_languages (some (StrOrList.str "zz")) ["da"]
      = Except.error (PyError.keyError "zz") :=
  (prepare_unknown_signals_keyerror "zz" "pos" ["da"] (by decide) (by decide)
    (by decide)).1

/-! ## Claim C4 -/

/-- C4, counterexample: an unrecognised dataset task makes
`DatasetFactory.build_dataset` raise `ValueError` ("Unknown dataset
task: ..."), not the `ConfigurationError` named by the claim (no such
class exists in the repository). -/
theorem build_dataset_not_configuration_error :
    build_dataset ⟨"x", "unknown-task", "token-classification"⟩
      = Except.error (PyError.valueError "Unknown dataset task: unknown-task")
  ∧ isConfigurationError (build_dataset ⟨"x", "unknown-task", "token-classification"⟩)
      = false := by
  exact ⟨by decide, by decide⟩

/-- C4, amended: dispatch is decided in this order — supertask
"text-classification" gives the text-classification executor, else task
"ner" gives the NER executor, else task "qa" gives the QA executor, else a
`ValueError` ("Unknown dataset task") is signalled. -/
theorem build_dataset_dispatch (cfg : DatasetConfig) :
    (cfg.supertask = "text-classification" →
      build_dataset cfg = Except.ok BenchmarkCls.textClassification)
  ∧ (cfg.supertask ≠ "text-classification" → cfg.task = "ner" →
      build_dataset cfg = Except.ok BenchmarkCls.ner)
  ∧ (cfg.supertask ≠ "text-classification" → cfg.task ≠ "ner" → cfg.task = "qa" →
      build_dataset cfg = Except.ok BenchmarkCls.qa)
  ∧ (cfg.supertask ≠ "text-classification" → cfg.task ≠ "ner" → cfg.task ≠ "qa" →
      build_dataset cfg
        = Except.error (PyError.valueError ("Unknown dataset task: " ++ cfg.task))) := by
  refine ⟨fun h1 => ?_, fun h1 h2 => ?_, fun h1 h2 h3 => ?_, fun h1 h2 h3 => ?_⟩
  · simp [build_dataset, h1]
  · simp [build_dataset, h1, h2]
  · simp [build_dataset, h1, h2, h3]
  · simp [build_dataset, h1, h2, h3]

/-- Witness for `build_dataset_dispatch` at concrete configurations of each
dispatch outcome. -/
theorem build_dataset_dispatch_witness :
    build_dataset ⟨"sst", "sentiment", "text-classification"⟩
      = Except.ok BenchmarkCls.textClassification
  ∧ build_dataset ⟨"dane", "ner", "token-classification"⟩
      = Except.ok BenchmarkCls.ner
  ∧ build_dataset ⟨"squad", "qa", "question-answering"⟩
      = Except.ok BenchmarkCls.qa
  ∧ build_dataset ⟨"x", "unknown-task", "token-classification"⟩
      = Except.error (PyError.valueError ("Unknown dataset task: " ++ "unknown-task")) :=
  ⟨(build_dataset_dispatch ⟨"sst", "sentiment", "text-classification"⟩).1 rfl,
   (build_dataset_dispatch ⟨"dane", "ner", "token-classification"⟩).2.1 (by decide) rfl,
   (build_dataset_dispatch ⟨"squad", "qa", "question-answering"⟩).2.2.1
     (by decide) (by decide) rfl,
   (build_dataset_dispatch ⟨"x", "unknown-task", "token-classification"⟩).2.2.2
     (by decide) (by decide) (by decide)⟩

/-! ## Claim C6 -/

/-- C6: a model identifier with the reserved "random" prefix makes
`get_model_config` return the synthetic `ModelConfig` with framework
"pytorch", task "fill-mask", empty languages and revision "main" — for
every registry state, including a failing transport, hence with zero
network calls. -/
theorem get_model_config_random_stub (model_id : String)
    (hub : Except String (List ModelInfo))
    (h : pyStartsWith model_id "random" = true) :
    get_model_config model_id hub
      = Except.ok ⟨model_id, "pytorch", "fill-mask", [], "main"⟩ := by
  unfold get_model_config
  simp only [h, if_true]

/-- Witness for `get_model_config_random_stub` at the curated synthetic
identifier, against a failing transport. -/
theorem get_model_config_random_stub_witness :
    get_model_config "random-xlmr-base-sequence-clf" (Except.error "offline")
      = Except.ok ⟨"random-xlmr-base-sequence-clf", "pytorch", "fill-mask", [], "main"⟩ :=
  get_model_config_random_stub "random-xlmr-base-sequence-clf"
    (Except.error "offline") (by decide)

/-! ## Claim C5 -/

theorem detect_framework_shapes (tags : List String) :
    detect_framework tags = Except.ok "pytorch"
  ∨ detect_framework tags = Except.ok "jax"
  ∨ detect_framework tags = Except.ok "spacy"
  ∨ detect_framework tags
      = Except.error (PyError.invalidBenchmark "TensorFlow/Keras models are not supported.") := by
  unfold detect_framework
  split_ifs <;> simp

/-- C5: in `get_model_config`, a registry query returning zero matches
raises `InvalidBenchmark` ("does not exist"), a transport-level failure
raises `ConnectionError` with the fixed connectivity message, the two
outcomes are distinct error constructors, and the raw transport exception
is never surfaced to the caller. -/
theorem get_model_config_error_taxonomy (model_id : String) (detail : String)
    (hrand : pyStartsWith model_id "random" = false)
    (hauthor : (splitAuthor (splitRevision model_id).1).isOk = true) :
    get_model_config model_id (Except.error detail)
      = Except.error (PyError.connectionError hubFailureMsg)
  ∧ get_model_config model_id (Except.ok [])
      = Except.error (PyError.invalidBenchmark
          ("The model " ++ model_id ++ " does not exist on the Hugging Face Hub."))
  ∧ (∀ hub : Except String (List ModelInfo), ∀ d : String,
      get_model_config model_id hub ≠ Except.error (PyError.requestException d))
  ∧ (∀ m1 m2 : String,
      (Except.error (PyError.invalidBenchmark m1) : Except PyError ModelConfig)
        ≠ Except.error (PyError.connectionError m2)) := by
  obtain ⟨an, hsa⟩ : ∃ an, splitAuthor (splitRevision model_id).1 = Except.ok an := by
    cases hx : splitAuthor (splitRevision model_id).1 with
    | ok v => exact ⟨v, rfl⟩
    | error e => rw [hx] at hauthor; exact absurd hauthor (by simp [Except.isOk, Except.toBool])
  refine ⟨?_, ?_, ?_, ?_⟩
  · unfold get_model_config
    simp only [hrand, Bool.false_eq_true, if_false]
    rw [hsa]
  · unfold get_model_config
    simp only [hrand, Bool.false_eq_true, if_false]
    rw [hsa]
  · intro hub d
    unfold get_model_config
    simp only [hrand, Bool.false_eq_true, if_false]
    rw [hsa]
    cases hub with
    | error _ => simp
    | ok models =>
        cases models with
        | nil => simp
        | cons m rest =>
            rcases detect_framework_shapes m.tags with hdf | hdf | hdf | hdf <;>
              simp [hdf]
  · intro m1 m2
    simp

/-- Witness for `get_model_config_error_taxonomy` at the identifier
"org/model" with transport detail "boom". -/
theorem get_model_config_error_taxonomy_witness :
    get_model_config "org/model" (Except.error "boom")
      = Except.error (PyError.connectionError hubFailureMsg)
  ∧ get_model_config "org/model" (Except.ok [])
      = Except.error (PyError.invalidBenchmark
          ("The model " ++ "org/model" ++ " does not exist on the Hugging Face Hub.")) :=
  ⟨(get_model_config_error_taxonomy "org/model" "boom" (by decide) (by decide)).1,
   (get_model_config_error_taxonomy "org/model" "boom" (by decide) (by decide)).2.1⟩

/-! ## Claim C7 -/

/-- C7: framework detection checks the matched model's tags in priority
order — a "pytorch" tag (or the absence of every conflicting framework
tag) yields pytorch; else a "jax" tag yields jax; else a "spacy" tag
yields spacy; else any of "tf"/"tensorflow"/"keras" raises
`InvalidBenchmark` and never falls back to pytorch, as the final conjunct
shows on a registry match whose only framework tag is "tf". -/
theorem detect_framework_priority (tags : List String) :
    (tags.contains "pytorch" = true → detect_framework tags = Except.ok "pytorch")
  ∧ (tags.contains "jax" = false → tags.contains "spacy" = false →
      tags.contains "tf" = false → tags.contains "tensorflow" = false →
      tags.contains "keras" = false → detect_framework tags = Except.ok "pytorch")
  ∧ (tags.contains "pytorch" = false → tags.contains "jax" = true →
      detect_framework tags = Except.ok "jax")
  ∧ (tags.contains "pytorch" = false → tags.contains "jax" = false →
      tags.contains "spacy" = true → detect_framework tags = Except.ok "spacy")
  ∧ (tags.contains "pytorch" = false → tags.contains "jax" = false →
      tags.contains "spacy" = false →
      (tags.contains "tf" || tags.contains "tensorflow" || tags.contains "keras") = true →
      detect_framework tags
        = Except.error (PyError.invalidBenchmark "TensorFlow/Keras models are not supported."))
  ∧ get_model_config "org/model-with-tf-tag"
      (Except.ok [⟨"org/model-with-tf-tag", ["tf"], none⟩])
      = Except.error (PyError.invalidBenchmark "TensorFlow/Keras models are not supported.") := by
  refine ⟨fun h => ?_, fun h1 h2 h3 h4 h5 => ?_, fun h1 h2 => ?_,
    fun h1 h2 h3 => ?_, fun h1 h2 h3 h4 => ?_, by decide⟩
  · unfold detect_framework
    rw [if_pos h]
  · by_cases hp : tags.contains "pytorch" = true
    · unfold detect_framework
      rw [if_pos hp]
    · have htf : "tf" ∉ tags := by simpa using h3
      have hte : "tensorflow" ∉ tags := by simpa using h4
      have hk : "keras" ∉ tags := by simpa using h5
      unfold detect_framework
      rw [if_neg hp, if_neg (by simpa using h1), if_neg (by simpa using h2),
        if_neg (by simp [htf, hte, hk])]
  · unfold detect_framework
    rw [if_neg (by simpa using h1), if_pos h2]
  · unfold detect_framework
    rw [if_neg (by simpa using h1), if_neg (by simpa using h2), if_pos h3]
  · unfold detect_framework
    rw [if_neg (by simpa using h1), if_neg (by simpa using h2),
      if_neg (by simpa using h3), if_pos h4]

/-- Witness for `detect_framework_priority` at the singleton tag sets
["tf"] and ["jax"]. -/
theorem detect_framework_priority_witness :
    detect_framework ["tf"]
      = Except.error (PyError.invalidBenchmark "TensorFlow/Keras models are not supported.")
  ∧ detect_framework ["jax"] = Except.ok "jax" :=
  ⟨(detect_framework_priority ["tf"]).2.2.2.2.1
      (by decide) (by decide) (by decide) (by decide),
   (detect_framework_priority ["jax"]).2.2.1 (by decide) (by decide)⟩

/-! ## Claim C8 -/

theorem get_model_config_ok_fields (model_id : String)
    (hub : Except String (List ModelInfo)) (cfg : ModelConfig)
    (hrand : pyStartsWith model_id "random" = false)
    (hok : get_model_config model_id hub = Except.ok cfg) :
    cfg.model_id = (splitRevision model_id).1
  ∧ cfg.revision = (splitRevision model_id).2 := by
  unfold get_model_config at hok
  simp only [hrand, Bool.false_eq_true, if_false] at hok
  cases hsa : splitAuthor (splitRevision model_id).1 with
  | error e => rw [hsa] at hok; exact absurd hok (by simp)
  | ok an =>
      rw [hsa] at hok
      cases hub with
      | error d => exact absurd hok (by simp)
      | ok models =>
          cases models with
          | nil => exact absurd hok (by simp)
          | cons m rest =>
              have hok2 : (match detect_framework m.tags with
                  | Except.error e => Except.error e
                  | Except.ok framework =>
                      Except.ok (⟨(splitRevision model_id).1, framework,
                        detect_model_task m.pipeline_tag,
                        m.tags.filter
                          (fun tag => (get_all_languages.map Prod.fst).contains tag),
                        (splitRevision model_id).2⟩ : ModelConfig)) = Except.ok cfg := hok
              cases hdf : detect_framework m.tags with
              | error e => rw [hdf] at hok2; exact absurd hok2 (by simp)
              | ok fw =>
                  rw [hdf] at hok2
                  have hinj : (⟨(splitRevision model_id).1, fw,
                      detect_model_task m.pipeline_tag,
                      m.tags.filter
                        (fun tag => (get_all_languages.map Prod.fst).contains tag),
                      (splitRevision model_id).2⟩ : ModelConfig) = cfg :=
                    Except.ok.inj hok2
                  rw [← hinj]
                  exact ⟨rfl, rfl⟩

/-- C8, counterexample: the "random" short-circuit of `get_model_config`
runs before the `@revision` split, so the random-prefixed identifier
"random@dev" is returned verbatim as `model_id` — keeping its "@dev"
suffix — while the revision field is "main", not "dev"; the claim says the
split also happens for identifiers starting with the "random" prefix. -/
theorem get_model_config_random_keeps_at_suffix :
    get_model_config "random@dev" (Except.ok [])
      = Except.ok ⟨"random@dev", "pytorch", "fill-mask", [], "main"⟩
  ∧ '@' ∈ ("random@dev" : String).toList
  ∧ splitRevision "random@dev" = ("random", "dev") := by
  exact ⟨by decide, by decide, by decide⟩

/-- C8, amended: for every `ModelConfig` produced by `get_model_config`
from an identifier that does not start with the "random" prefix, the
`model_id` field never includes an "@revision" suffix: when the input
contains "@" the part after the first "@" is split out into the revision
field, and otherwise the revision defaults to "main".  An identifier that
does start with the "random" prefix is instead returned verbatim (any "@"
suffix included) with revision "main". -/
theorem get_model_config_revision_split (model_id : String)
    (hub : Except String (List ModelInfo)) (cfg : ModelConfig)
    (hok : get_model_config model_id hub = Except.ok cfg) :
    (pyStartsWith model_id "random" = true →
      cfg.model_id = model_id ∧ cfg.revision = "main")
  ∧ (pyStartsWith model_id "random" = false →
      '@' ∉ cfg.model_id.toList
    ∧ ('@' ∈ model_id.toList → model_id = cfg.model_id ++ "@" ++ cfg.revision)
    ∧ ('@' ∉ model_id.toList → cfg.model_id = model_id ∧ cfg.revision = "main")) := by
  constructor
  · intro hr
    unfold get_model_config at hok
    simp only [hr, if_true] at hok
    have hinj : (⟨model_id, "pytorch", "fill-mask", [], "main"⟩ : ModelConfig) = cfg :=
      Except.ok.inj hok
    rw [← hinj]
    exact ⟨rfl, rfl⟩
  · intro hr
    obtain ⟨h1, h2⟩ := get_model_config_ok_fields model_id hub cfg hr hok
    by_cases hat : '@' ∈ model_id.toList
    · obtain ⟨hna, heq⟩ := splitRevision_of_mem model_id hat
      exact ⟨by rw [h1]; exact hna,
        fun _ => by rw [h1, h2]; exact heq,
        fun hc => absurd hat hc⟩
    · have hs := splitRevision_of_not_mem model_id hat
      refine ⟨?_, fun hc => absurd hc hat, fun _ => ⟨?_, ?_⟩⟩
      · rw [h1, hs]
        exact hat
      · rw [h1, hs]
      · rw [h2, hs]

/-- Witness for `get_model_config_revision_split` at the identifier
"org/model@v1" resolved against a single registry match. -/
theorem get_model_config_revision_split_witness :
    get_model_config "org/model@v1" (Except.ok [⟨"org/model", [], none⟩])
      = Except.ok ⟨"org/model", "pytorch", "fill-mask", [], "v1"⟩
  ∧ '@' ∉ ("org/model" : String).toList :=
  ⟨by decide,
   ((get_model_config_revision_split "org/model@v1"
      (Except.ok [⟨"org/model", [], none⟩])
      ⟨"org/model", "pytorch", "fill-mask", [], "v1"⟩ (by decide)).2 (by decide)).1⟩

/-! ## Claim C2 -/

/-- C2: evaluating `get_model_lists` at a resolved language set containing
"da" (tasks unfiltered, registry returning no matches) shows the curated
Danish-multilingual override list is never injected: the guard
`"da" in languages` compares the string "da" against `Language` records
and is always false, so the "da" bucket stays empty and the "all" bucket
lacks every curated Danish identifier — contradicting the claim (and the
source's own comment) that the list is appended to both buckets. -/
theorem get_model_lists_da_override_missing :
    pyStrInLanguages "da" [⟨"da", "Danish"⟩] = false
  ∧ dGet (get_model_lists (fun _ _ => []) [⟨"da", "Danish"⟩] none) "da" = some []
  ∧ ((dGet (get_model_lists (fun _ _ => []) [⟨"da", "Danish"⟩] none) "all").getD
      []).contains "Geotrend/bert-base-en-da-cased" = false := by
  exact ⟨rfl, by decide, by decide⟩

end ScandEval
